import Mathlib

/-!
# DumbPad server core: shallow embedding and verification

This file embeds the access-control and notepad-registry core of the DumbPad
server (`server.js`) in Lean 4: the credential validator (`isValidPin`,
`secureCompare`), the per-IP rate limiter (`loginAttempts`, `isLockedOut`,
`recordAttempt`, `resetAttempts`), the PIN gate middleware (`requirePin`) and
its application to the `/api` route stack, and the notepad registry and note
store handlers.  Strings that the credential code compares are modelled by
their UTF-8 byte sequences; `Date.now()` timestamps are natural numbers of
milliseconds; the filesystem is an explicit association of paths (segment
lists) to file contents.
-/

namespace DumbPad

/-- A JavaScript value as seen by the credential-handling code: either a
string, modelled by its UTF-8 byte sequence (what `Buffer.from` produces), or
any non-string value (`undefined`, `null`, numbers, objects, ...). -/
inductive JSVal where
  | str (bytes : List Nat) : JSVal
  | other : JSVal
deriving DecidableEq, Repr

/-- Source: `const MAX_ATTEMPTS = 5`. -/
def MAX_ATTEMPTS : Nat := 5

/-- Source: `const LOCKOUT_TIME = 15 * 60 * 1000` (milliseconds). -/
def LOCKOUT_TIME : Nat := 15 * 60 * 1000

/-- One entry of the `loginAttempts` map: `{ count, lastAttempt }`. -/
structure Attempts where
  count : Nat
  lastAttempt : Nat
deriving DecidableEq, Repr

/-- The in-memory `loginAttempts` map, keyed by client IP. -/
abbrev AttemptMap := List (String × Attempts)

/-- Source: `loginAttempts.get(ip)`. -/
def mapGet : AttemptMap → String → Option Attempts
  | [], _ => none
  | (k, a) :: rest, ip => if k = ip then some a else mapGet rest ip

/-- Source: `resetAttempts(ip)`: `loginAttempts.delete(ip)`. -/
def resetAttempts : AttemptMap → String → AttemptMap
  | [], _ => []
  | (k, a) :: rest, ip =>
    if k = ip then resetAttempts rest ip else (k, a) :: resetAttempts rest ip

/-- Source: `loginAttempts.set(ip, a)`. -/
def mapSet (m : AttemptMap) (ip : String) (a : Attempts) : AttemptMap :=
  (ip, a) :: resetAttempts m ip

/-- Source: `isLockedOut(ip)` at wall-clock time `now`: returns the boolean result
together with the updated map (the stale-record deletion is a side effect on
`loginAttempts`).  A record locks its IP out iff `count >= MAX_ATTEMPTS` and
`Date.now() - lastAttempt < LOCKOUT_TIME`; a record with `count >=
MAX_ATTEMPTS` whose window has elapsed is deleted before returning `false`. -/
def isLockedOut (m : AttemptMap) (ip : String) (now : Nat) : Bool × AttemptMap :=
  match mapGet m ip with
  | none => (false, m)
  | some a =>
    if MAX_ATTEMPTS ≤ a.count then
      if (now : Int) - (a.lastAttempt : Int) < (LOCKOUT_TIME : Int) then (true, m)
      else (false, resetAttempts m ip)
    else (false, m)

/-- Source: `recordAttempt(ip)` at wall-clock time `now`. -/
def recordAttempt (m : AttemptMap) (ip : String) (now : Nat) : AttemptMap :=
  let a := (mapGet m ip).getD ⟨0, 0⟩
  mapSet m ip ⟨a.count + 1, now⟩

/-- Source: `isValidPin(pin)`: `typeof pin === 'string' && /^\d{4,10}$/.test(pin)`.
On the byte model: between 4 and 10 bytes, all ASCII digits (48–57). -/
def isValidPin (v : JSVal) : Bool :=
  match v with
  | .str bs =>
    decide (4 ≤ bs.length) && decide (bs.length ≤ 10) &&
      bs.all (fun b => decide (48 ≤ b) && decide (b ≤ 57))
  | .other => false

/-- Source: `crypto.timingSafeEqual(Buffer.from(a), Buffer.from(b))`: raises
(`.error`) when the two buffers have different lengths, otherwise reports
whether the byte sequences are equal. -/
def timingSafeEqual (a b : List Nat) : Except Unit Bool :=
  if a.length = b.length then .ok (decide (a = b)) else .error ()

/-- Source: `secureCompare(a, b)`: `false` when either argument is not a string;
otherwise the result of `timingSafeEqual` on the UTF-8 buffers, with the
`catch` turning the length-mismatch exception into `false`. -/
def secureCompare (a b : JSVal) : Bool :=
  match a, b with
  | .str xs, .str ys =>
    match timingSafeEqual xs ys with
    | .ok r => r
    | .error _ => false
  | _, _ => false

/-- Byte-comparison steps performed by `secureCompare`: `timingSafeEqual`
checks the buffer lengths first and raises before inspecting any byte when
they differ, so a length mismatch performs zero byte comparisons, while
equal-length inputs always perform one comparison per byte, wherever (and
whether) a mismatching byte occurs. -/
def secureCompareCost (a b : JSVal) : Nat :=
  match a, b with
  | .str xs, .str ys => if xs.length = ys.length then xs.length else 0
  | _, _ => 0

/-- Whether the `crypto.timingSafeEqual` call inside `secureCompare` raised,
so that control reached the `catch` branch. -/
def secureCompareThrew (a b : JSVal) : Bool :=
  match a, b with
  | .str xs, .str ys =>
    match timingSafeEqual xs ys with
    | .ok _ => false
    | .error _ => true
  | _, _ => false

/-- Truthiness of a JavaScript value in the positions the handlers test one
(`pin && ...`, `!providedPin`): a string is truthy iff nonempty.  Non-string
values reach such a test only after `isValidPin` has already rejected them, so
their exact truthiness is never observed; the model maps them to `false`. -/
def jsTruthy (v : JSVal) : Bool :=
  match v with
  | .str bs => decide (bs ≠ [])
  | .other => false

/-- Outcome of the `POST /api/verify-pin` handler. -/
inductive VerifyResp where
  | ok
  | invalidFormat
  | unauthorized
deriving DecidableEq, Repr

/-- Source: `POST /api/verify-pin` handler body.  `pinEnv` is `process.env.DUMBPAD_PIN`
(absent, or a string given by its bytes); the empty string is falsy, like
absence.  The handler takes and returns the `loginAttempts` map so that any
rate-limiter interaction is explicit in the model: the handler performs none,
so the map comes back unchanged. -/
def verifyPinHandler (pinEnv : Option (List Nat)) (pin : JSVal) (m : AttemptMap) :
    VerifyResp × AttemptMap :=
  match pinEnv with
  | none => (.ok, m)
  | some P =>
    if P = [] then (.ok, m)
    else if !isValidPin pin then (.invalidFormat, m)
    else if jsTruthy pin && secureCompare pin (.str P) then (.ok, m)
    else (.unauthorized, m)

/-- Outcome of the `requirePin` middleware: pass the request on, reject with
HTTP 400 (malformed credential) or reject with HTTP 401. -/
inductive GateResult where
  | allowed
  | invalidFormat
  | unauthorized
deriving DecidableEq, Repr

/-- The `requirePin` middleware decision, given the configured
`process.env.DUMBPAD_PIN` and the request's `x-pin` header (a missing header
is the non-string `undefined`).  The middleware short-circuits to `allowed`
only on `!PIN`, i.e. an absent or empty configured PIN. -/
def requirePin (pinEnv : Option (List Nat)) (providedPin : JSVal) : GateResult :=
  match pinEnv with
  | none => .allowed
  | some P =>
    if P = [] then .allowed
    else if !isValidPin providedPin then .invalidFormat
    else if !jsTruthy providedPin || !secureCompare providedPin (.str P) then .unauthorized
    else .allowed

/-! ## Filesystem paths

Paths are lists of segments.  `path.join` concatenates its arguments'
segments and normalizes the result, dropping empty and `.` segments and
resolving each `..` against the segment before it. -/

/-- A filesystem path, as the list of its segments. -/
abbrev FsPath := List String

/-- One step of Node `path` normalization over a reversed segment stack. -/
def normStep (stack : List String) (seg : String) : List String :=
  if seg = "" ∨ seg = "." then stack
  else if seg = ".." then
    match stack with
    | [] => [".."]
    | t :: rest => if t = ".." then seg :: t :: rest else rest
  else seg :: stack

/-- Node `path` normalization of a segment sequence. -/
def normalize (segs : List String) : FsPath :=
  (segs.foldl normStep []).reverse

/-- Split a string into `/`-separated segments (structural recursion over the
character list, so that it evaluates by kernel reduction). -/
def splitAux : List Char → List Char → List String
  | [], acc => [acc.reverse.asString]
  | c :: rest, acc =>
    if c = '/' then acc.reverse.asString :: splitAux rest []
    else splitAux rest (c :: acc)

/-- Split a string on `/`. -/
def splitPath (s : String) : List String := splitAux s.toList []

/-- Source: `const DATA_DIR = path.join(__dirname, 'data')`; `__dirname` is the
server's installation directory, kept abstract as a single segment. -/
def dataDir : FsPath := ["__dirname", "data"]

/-- Source: `path.join(DATA_DIR, s)`. -/
def joinData (s : String) : FsPath := normalize (dataDir ++ splitPath s)

/-- The file backing notepad `id`: `path.join(DATA_DIR, id + ".txt")`,
exactly as both note handlers and the delete handler compute it — the `id`
taken from the request path is not validated or sanitized first. -/
def notePath (id : String) : FsPath := joinData (id ++ ".txt")

/-- Source: `path.join(DATA_DIR, 'default.txt')`. -/
def defaultNotePath : FsPath := joinData "default.txt"

/-- Whether `p` lies at or below `base`. -/
def isUnder (base p : FsPath) : Bool := base.isPrefixOf p

/-- The data directory's text files: an association of paths to contents. -/
abbrev FileSys := List (FsPath × String)

/-- Source: `fs.readFile`: `none` models ENOENT (or any read failure). -/
def fsRead : FileSys → FsPath → Option String
  | [], _ => none
  | (q, c) :: rest, p => if q = p then some c else fsRead rest p

/-- Remove every entry stored at `p` (`fs.unlink`, and the overwrite part of
`fs.writeFile`). -/
def fsErase : FileSys → FsPath → FileSys
  | [], _ => []
  | (q, c) :: rest, p => if q = p then fsErase rest p else (q, c) :: fsErase rest p

/-- Source: `fs.writeFile`: replace the content at `p` wholesale. -/
def fsWrite (fs : FileSys) (p : FsPath) (c : String) : FileSys :=
  (p, c) :: fsErase fs p

/-! ## Notepad registry and server state -/

/-- One registry entry: `{ id, name }`. -/
structure Notepad where
  id : String
  name : String
deriving DecidableEq, Repr

/-- The entry `{ id: 'default', name: 'Default Notepad' }`. -/
def defaultNotepad : Notepad := ⟨"default", "Default Notepad"⟩

/-- Server persistent state: the content of `notepads.json` (`none` when the
file is missing, unparseable, or lacks a `notepads` array — every case in
which the handlers' `JSON.parse`/structure check fails) and the per-notepad
text files. -/
structure ServerState where
  registry : Option (List Notepad)
  files : FileSys
deriving DecidableEq, Repr

/-- Source: `ensureDataDir()`: recreate `notepads.json` with the single default entry
when it is missing or structurally invalid, and create an empty
`default.txt` when absent. -/
def ensureDataDir (st : ServerState) : ServerState :=
  let reg :=
    match st.registry with
    | some pads => some pads
    | none => some [defaultNotepad]
  let files :=
    match fsRead st.files defaultNotePath with
    | some _ => st.files
    | none => fsWrite st.files defaultNotePath ""
  ⟨reg, files⟩

/-- The JSON responses of the `/api` routes (error statuses included). -/
inductive Response where
  | verify (r : VerifyResp)
  | pinStatus (required : Bool) (len : Nat) (locked : Bool)
  | config (siteTitle baseUrl : String)
  | gateDenied (g : GateResult)
  | notepadList (pads : List Notepad)
  | notepadCreated (n : Notepad)
  | notepadRenamed (n : Notepad)
  | noteContent (content : String)
  | saved
  | deleted
  | invalidOp
  | notFound
  | serverError
  | unmatched
deriving DecidableEq, Repr

/-- Source: `GET /api/notepads` handler: `ensureDataDir()` then read and return the
(now necessarily valid) registry envelope. -/
def listNotepads (st : ServerState) : Response × ServerState :=
  let st1 := ensureDataDir st
  match st1.registry with
  | some pads => (.notepadList pads, st1)
  | none => (.serverError, st1)

/-- Source: `POST /api/notepads` handler: read `notepads.json` (a read/parse failure
is a 500), set `id = Date.now().toString()` and `name = 'Notepad ' +
(count + 1)`, append, persist, create the empty note file, and return the new
notepad.  `now` is the `Date.now()` reading in milliseconds. -/
def createNotepad (st : ServerState) (now : Nat) : Response × ServerState :=
  match st.registry with
  | none => (.serverError, st)
  | some pads =>
    let id := Nat.repr now
    let np : Notepad := ⟨id, "Notepad " ++ Nat.repr (pads.length + 1)⟩
    (.notepadCreated np,
      ⟨some (pads ++ [np]), fsWrite st.files (notePath id) ""⟩)

/-- Replace the name of the first entry whose id matches (the in-place
mutation of the object `find` returned). -/
def renameFirst : List Notepad → String → String → List Notepad
  | [], _, _ => []
  | n :: rest, id, name =>
    if n.id = id then ⟨n.id, name⟩ :: rest else n :: renameFirst rest id name

/-- Source: `PUT /api/notepads/:id` handler. -/
def renameNotepad (st : ServerState) (id name : String) : Response × ServerState :=
  match st.registry with
  | none => (.serverError, st)
  | some pads =>
    match pads.find? (fun n => decide (n.id = id)) with
    | none => (.notFound, st)
    | some n =>
      (.notepadRenamed ⟨n.id, name⟩, ⟨some (renameFirst pads id name), st.files⟩)

/-- Remove the first entry whose id matches (`splice(findIndex(...), 1)`). -/
def removeFirst : List Notepad → String → List Notepad
  | [], _ => []
  | n :: rest, id => if n.id = id then rest else n :: removeFirst rest id

/-- Source: `DELETE /api/notepads/:id` handler.  `unlinkOk` models whether the
best-effort `fs.access`/`fs.unlink` of the note file succeeds; on failure the
error is only logged and the handler still reports success, the registry
mutation already persisted. -/
def deleteNotepad (st : ServerState) (id : String) (unlinkOk : Bool) :
    Response × ServerState :=
  if id = "default" then (.invalidOp, st)
  else
    match st.registry with
    | none => (.serverError, st)
    | some pads =>
      if pads.all (fun n => decide (n.id ≠ id)) then (.notFound, st)
      else
        let pads' := removeFirst pads id
        let files' := if unlinkOk then fsErase st.files (notePath id) else st.files
        (.deleted, ⟨some pads', files'⟩)

/-- Source: `GET /api/notes/:id` handler:
`fs.readFile(path.join(DATA_DIR, id + '.txt'), 'utf8').catch(() => '')` —
a missing file reads as the empty string, not an error. -/
def getNotes (fs : FileSys) (id : String) : String :=
  (fsRead fs (notePath id)).getD ""

/-- Source: `POST /api/notes/:id` handler: `ensureDataDir()` then overwrite the note
file with `req.body.content` wholesale. -/
def saveNotes (st : ServerState) (id content : String) : ServerState :=
  let st1 := ensureDataDir st
  ⟨st1.registry, fsWrite st1.files (notePath id) content⟩

/-! ## The `/api` layer stack -/

/-- HTTP method. -/
inductive Method where
  | GET | POST | PUT | DELETE
deriving DecidableEq, Repr

/-- An inbound `/api` request.  `path` is relative to the `/api` mount (what
Express exposes as `req.path` inside the mounted middleware); unused body
fields of a given route are simply ignored by its handler. -/
structure Request where
  method : Method
  path : String
  ip : String
  xpin : JSVal
  bodyPin : JSVal
  bodyName : String
  bodyContent : String

/-- Environment configuration read at startup. -/
structure Env where
  pin : Option (List Nat)
  siteTitle : Option String
  baseUrl : String

/-- Source: `required: !!PIN && isValidPin(PIN)` of `GET /api/pin-required`. -/
def pinRequiredFlag (pinEnv : Option (List Nat)) : Bool :=
  match pinEnv with
  | none => false
  | some P => !P.isEmpty && isValidPin (.str P)

/-- Source: `length: PIN ? PIN.length : 0` of `GET /api/pin-required` (modelled as
byte length; the two coincide on ASCII PINs). -/
def pinLen (pinEnv : Option (List Nat)) : Nat :=
  match pinEnv with
  | none => 0
  | some P => if P = [] then 0 else P.length

/-- Match an Express route pattern `pre + ':id'`: the path must extend `pre`
by one nonempty parameter segment containing no `/`.  (Express additionally
percent-decodes the captured parameter; the model works with the decoded
value directly.) -/
def routeParam (pre p : String) : Option String :=
  let lp := pre.toList
  let l := p.toList
  if lp.isPrefixOf l then
    let rest := l.drop lp.length
    if rest = [] ∨ rest.contains '/' then none else some rest.asString
  else none

/-- The routes registered after the gate middleware, tried in registration
order. -/
def dispatchProtected (req : Request) (st : ServerState) (now : Nat)
    (unlinkOk : Bool) : Response × ServerState :=
  if req.method = .GET ∧ req.path = "/notepads" then listNotepads st
  else if req.method = .POST ∧ req.path = "/notepads" then createNotepad st now
  else
    match req.method, routeParam "/notepads/" req.path, routeParam "/notes/" req.path with
    | .PUT, some id, _ => renameNotepad st id req.bodyName
    | .DELETE, some id, _ => deleteNotepad st id unlinkOk
    | .GET, _, some id => (.noteContent (getNotes st.files id), st)
    | .POST, _, some id => (.saved, saveNotes st id req.bodyContent)
    | _, _, _ => (.unmatched, st)

/-- The `/api` layer stack in registration order: the `verify-pin`,
`pin-required` and `config` route handlers are registered before the
`app.use('/api', ...)` gate middleware, so requests they match never reach
the gate; the gate additionally exempts the `verify-pin` and `pin-required`
paths before applying `requirePin`, and every later route is guarded. -/
def dispatch (env : Env) (req : Request) (st : ServerState) (m : AttemptMap)
    (now : Nat) (unlinkOk : Bool) : Response × ServerState × AttemptMap :=
  if req.method = .POST ∧ req.path = "/verify-pin" then
    let r := verifyPinHandler env.pin req.bodyPin m
    (.verify r.1, st, r.2)
  else if req.method = .GET ∧ req.path = "/pin-required" then
    let r := isLockedOut m req.ip now
    (.pinStatus (pinRequiredFlag env.pin) (pinLen env.pin) r.1, st, r.2)
  else if req.method = .GET ∧ req.path = "/config" then
    (.config (env.siteTitle.getD "DumbPad") env.baseUrl, st, m)
  else if req.path = "/verify-pin" ∨ req.path = "/pin-required" then
    (.unmatched, st, m)
  else
    match requirePin env.pin req.xpin with
    | .allowed =>
      let r := dispatchProtected req st now unlinkOk
      (r.1, r.2, m)
    | g => (.gateDenied g, st, m)

/-! ## `Nat.repr` (the model of `Date.now().toString()`) is injective -/

/-- Decimal digit characters of `n`, most significant first. -/
def decChars (n : Nat) : List Char :=
  if _h : n < 10 then [Nat.digitChar n]
  else decChars (n / 10) ++ [Nat.digitChar (n % 10)]
decreasing_by exact Nat.div_lt_self (by omega) (by omega)

/-- Numeric value of a decimal digit character. -/
def charVal (c : Char) : Nat := c.toNat - 48

/-- Read a digit-character list back as a number. -/
def ofDecChars (l : List Char) : Nat :=
  l.foldl (fun acc c => acc * 10 + charVal c) 0

theorem charVal_digitChar (n : Nat) (h : n < 10) : charVal (Nat.digitChar n) = n := by
  interval_cases n <;> rfl

theorem ofDecChars_append (l : List Char) (c : Char) :
    ofDecChars (l ++ [c]) = ofDecChars l * 10 + charVal c := by
  simp [ofDecChars, List.foldl_append]

theorem ofDecChars_decChars (n : Nat) : ofDecChars (decChars n) = n := by
  induction n using Nat.strong_induction_on with
  | _ n ih =>
    rw [decChars]
    by_cases h : n < 10
    · simp only [h, dif_pos]
      simpa [ofDecChars] using charVal_digitChar n h
    · simp only [h, dif_neg, not_false_iff]
      rw [ofDecChars_append, ih (n / 10) (Nat.div_lt_self (by omega) (by omega)),
        charVal_digitChar (n % 10) (Nat.mod_lt n (by omega))]
      omega

theorem decChars_injective : Function.Injective decChars := by
  intro a b h
  have := ofDecChars_decChars a
  rw [h, ofDecChars_decChars] at this
  omega

theorem toDigitsCore_eq_decChars (fuel : Nat) :
    ∀ (n : Nat) (ds : List Char), n < 10 ^ fuel →
      Nat.toDigitsCore 10 (fuel + 1) n ds = decChars n ++ ds := by
  induction fuel with
  | zero =>
    intro n ds hn
    have hn0 : n = 0 := by omega
    subst hn0
    simp [Nat.toDigitsCore, decChars]
  | succ f ih =>
    intro n ds hn
    rw [Nat.toDigitsCore]
    by_cases h : n / 10 = 0
    · have hlt : n < 10 := by omega
      rw [decChars]
      simp [h, hlt, Nat.mod_eq_of_lt hlt]
    · have hge : 10 ≤ n := by omega
      have hdiv : n / 10 < 10 ^ f := by
        rw [Nat.div_lt_iff_lt_mul (by omega)]
        calc n < 10 ^ (f + 1) := hn
        _ = 10 ^ f * 10 := by rw [Nat.pow_succ]
      rw [if_neg h, ih (n / 10) (Nat.digitChar (n % 10) :: ds) hdiv]
      conv_rhs => rw [decChars]
      have hlt : ¬ n < 10 := by omega
      simp [hlt, List.append_assoc]

theorem repr_eq_decChars (n : Nat) : Nat.repr n = (decChars n).asString := by
  have hfuel : n < 10 ^ n := by
    calc n < 2 ^ n := Nat.lt_two_pow n
    _ ≤ 10 ^ n := Nat.pow_le_pow_left (by omega) n
  rw [Nat.repr, Nat.toDigits, toDigitsCore_eq_decChars n n [] hfuel, List.append_nil]

theorem natRepr_injective : Function.Injective Nat.repr := by
  intro a b h
  rw [repr_eq_decChars, repr_eq_decChars] at h
  exact decChars_injective (congrArg String.data h)

/-! ## Helper lemmas -/

/-- On two byte strings, `secureCompare` answers `true` exactly on equal
byte sequences. -/
theorem secureCompare_str_iff (xs ys : List Nat) :
    secureCompare (.str xs) (.str ys) = true ↔ xs = ys := by
  simp only [secureCompare, timingSafeEqual]
  by_cases h : xs.length = ys.length
  · simp [h]
  · simp only [h, if_false]
    constructor
    · intro hf
      cases hf
    · intro hxy
      exact absurd (congrArg List.length hxy) h

/-- Overwriting then reading the same path yields the written content. -/
theorem fsRead_fsWrite (fs : FileSys) (p : FsPath) (c : String) :
    fsRead (fsWrite fs p c) p = some c := by
  simp [fsWrite, fsRead]

/-- Saving then reading the same notepad id yields the saved text. -/
theorem getNotes_saveNotes (st : ServerState) (id text : String) :
    getNotes (saveNotes st id text).files id = text := by
  simp [getNotes, saveNotes, fsRead_fsWrite]

/-- Reduction of the delete handler once the id is known not to be
`"default"` and the registry is readable. -/
theorem deleteNotepad_eq (pads : List Notepad) (files : FileSys) (id : String)
    (uo : Bool) (hid : id ≠ "default") :
    deleteNotepad ⟨some pads, files⟩ id uo
      = (if pads.all (fun n => decide (n.id ≠ id)) then (.notFound, ⟨some pads, files⟩)
         else (.deleted, ⟨some (removeFirst pads id),
            if uo then fsErase files (notePath id) else files⟩)) := by
  unfold deleteNotepad
  rw [if_neg hid]

/-! ## Claim theorems -/

/-- C1 (code bug): the `POST /api/verify-pin` handler never interacts with
the rate limiter.  For every configuration, submitted pin and `loginAttempts`
map the handler leaves the map unchanged — so failed verifications record no
failure, successful ones reset nothing, and concretely five consecutive
failed verifications of the wrong pin `"9999"` against the configured pin
`"1234"` (each rejected with 401) leave the map empty and `isLockedOut`
still `false`, where the claim (and the code's own `Brute force protection`
section, whose `recordAttempt` is never called) requires a lockout. -/
theorem verify_pin_never_touches_rate_limiter :
    (∀ (pinEnv : Option (List Nat)) (pin : JSVal) (m : AttemptMap),
      (verifyPinHandler pinEnv pin m).2 = m) ∧
    (verifyPinHandler (some [49, 50, 51, 52]) (.str [57, 57, 57, 57]) []).1
      = .unauthorized ∧
    (List.range MAX_ATTEMPTS).foldl
      (fun m _ => (verifyPinHandler (some [49, 50, 51, 52]) (.str [57, 57, 57, 57]) m).2)
      [] = [] ∧
    (isLockedOut [] "1.2.3.4" LOCKOUT_TIME).1 = false := by
  refine ⟨?_, rfl, rfl, rfl⟩
  intro pinEnv pin m
  cases pinEnv with
  | none => rfl
  | some P =>
    simp only [verifyPinHandler]
    split
    · rfl
    · split
      · rfl
      · split <;> rfl

/-- C4: `secureCompare` returns `false` — without raising, the `try`/`catch`
making it total — whenever either argument is not a string, and on two
strings it returns `true` exactly when their byte sequences are equal (a
length mismatch makes `timingSafeEqual` raise, which the `catch` turns into
`false`). -/
theorem secureCompare_correct :
    (∀ v : JSVal, secureCompare .other v = false ∧ secureCompare v .other = false) ∧
    (∀ xs ys : List Nat, secureCompare (.str xs) (.str ys) = true ↔ xs = ys) := by
  constructor
  · intro v
    cases v <;> exact ⟨rfl, rfl⟩
  · exact secureCompare_str_iff

/-- C5 counterexample: whether a length mismatch occurs changes the executed
path of `secureCompare`.  On `"1234"` vs `"123"` the `timingSafeEqual`
primitive raises (the `catch` branch runs) after zero byte comparisons, while
on the equal-length mismatch `"1234"` vs `"1235"` it raises nothing and
compares all four bytes — an early-exit path on length mismatch, which the
claim asserts does not exist. -/
theorem secureCompare_length_mismatch_diverges :
    secureCompareThrew (.str [49, 50, 51, 52]) (.str [49, 50, 51]) = true ∧
    secureCompareCost (.str [49, 50, 51, 52]) (.str [49, 50, 51]) = 0 ∧
    secureCompareThrew (.str [49, 50, 51, 52]) (.str [49, 50, 51, 53]) = false ∧
    secureCompareCost (.str [49, 50, 51, 52]) (.str [49, 50, 51, 53]) = 4 :=
  ⟨rfl, rfl, rfl, rfl⟩

/-- C5 amended: for byte strings of equal length, `secureCompare` performs
exactly one byte comparison per byte — a cost independent of where, and
whether, a mismatching byte occurs — and never reaches the `catch`; but when
the byte lengths differ, `timingSafeEqual` raises before comparing any byte
and the `catch` returns `false`, a divergent code path on length mismatch. -/
theorem secureCompare_cost_length_dependent (xs ys : List Nat) :
    (xs.length = ys.length →
      secureCompareCost (.str xs) (.str ys) = xs.length ∧
      secureCompareThrew (.str xs) (.str ys) = false) ∧
    (xs.length ≠ ys.length →
      secureCompareCost (.str xs) (.str ys) = 0 ∧
      secureCompareThrew (.str xs) (.str ys) = true ∧
      secureCompare (.str xs) (.str ys) = false) := by
  constructor
  · intro h
    simp [secureCompareCost, secureCompareThrew, timingSafeEqual, h]
  · intro h
    simp [secureCompareCost, secureCompareThrew, secureCompare, timingSafeEqual, h]

/-- Witness for the amended C5 at the concrete equal-length pair
`"12"`/`"34"`. -/
theorem secureCompare_cost_length_dependent_witness :
    ([49, 50] : List Nat).length = ([51, 52] : List Nat).length ∧
    (secureCompareCost (.str [49, 50]) (.str [51, 52]) = ([49, 50] : List Nat).length ∧
      secureCompareThrew (.str [49, 50]) (.str [51, 52]) = false) :=
  ⟨rfl, (secureCompare_cost_length_dependent [49, 50] [51, 52]).1 rfl⟩

/-- C6 counterexample: a stale record whose `count` is below `MAX_ATTEMPTS`
is not cleared.  With the record `{count := 1, lastAttempt := 0}` and the
elapsed time exactly `LOCKOUT_TIME` (so the record is stale), `isLockedOut`
returns `false` but leaves the record in the map, where the claim requires
it to be cleared before returning. -/
theorem isLockedOut_stale_record_not_cleared :
    isLockedOut [("10.0.0.1", ⟨1, 0⟩)] "10.0.0.1" LOCKOUT_TIME
      = (false, [("10.0.0.1", ⟨1, 0⟩)]) ∧
    (LOCKOUT_TIME : Int) ≤ (LOCKOUT_TIME : Int) - ((0 : Nat) : Int) ∧
    mapGet (isLockedOut [("10.0.0.1", ⟨1, 0⟩)] "10.0.0.1" LOCKOUT_TIME).2 "10.0.0.1"
      = some ⟨1, 0⟩ := by
  refine ⟨?_, by decide, ?_⟩ <;> decide

/-- C6 amended: `isLockedOut(clientId)` returns `true` iff a record exists
with `failedCount ≥ MAX_ATTEMPTS` and elapsed time `< LOCKOUT_TIME`; a stale
record is cleared before returning `false` only when its `failedCount ≥
MAX_ATTEMPTS` — a record with fewer failures is returned unchanged however
stale it is (the periodic sweep, not this check, removes it). -/
theorem isLockedOut_iff_and_clears_only_maxed (m : AttemptMap) (ip : String) (now : Nat) :
    ((isLockedOut m ip now).1 = true ↔
      ∃ a, mapGet m ip = some a ∧ MAX_ATTEMPTS ≤ a.count ∧
        (now : Int) - (a.lastAttempt : Int) < (LOCKOUT_TIME : Int)) ∧
    (∀ a, mapGet m ip = some a → MAX_ATTEMPTS ≤ a.count →
      (LOCKOUT_TIME : Int) ≤ (now : Int) - (a.lastAttempt : Int) →
      isLockedOut m ip now = (false, resetAttempts m ip)) ∧
    (∀ a, mapGet m ip = some a → a.count < MAX_ATTEMPTS →
      isLockedOut m ip now = (false, m)) ∧
    (mapGet m ip = none → isLockedOut m ip now = (false, m)) := by
  cases hg : mapGet m ip with
  | none =>
    refine ⟨?_, ?_, ?_, fun _ => by simp [isLockedOut, hg]⟩
    · simp [isLockedOut, hg]
    · intro b hb
      exact absurd hb (by simp)
    · intro b hb
      exact absurd hb (by simp)
  | some a =>
    have hred : isLockedOut m ip now =
        (if MAX_ATTEMPTS ≤ a.count then
          if (now : Int) - (a.lastAttempt : Int) < (LOCKOUT_TIME : Int) then (true, m)
          else (false, resetAttempts m ip)
        else (false, m)) := by
      simp [isLockedOut, hg]
    refine ⟨?_, ?_, ?_, ?_⟩
    · by_cases hc : MAX_ATTEMPTS ≤ a.count
      · by_cases ht : (now : Int) - (a.lastAttempt : Int) < (LOCKOUT_TIME : Int)
        · rw [hred, if_pos hc, if_pos ht]
          exact ⟨fun _ => ⟨a, rfl, hc, ht⟩, fun _ => rfl⟩
        · rw [hred, if_pos hc, if_neg ht]
          constructor
          · intro hfalse
            exact absurd hfalse (by simp)
          · rintro ⟨b, hb, -, htb⟩
            simp only [Option.some.injEq] at hb
            subst hb
            exact absurd htb ht
      · rw [hred, if_neg hc]
        constructor
        · intro hfalse
          exact absurd hfalse (by simp)
        · rintro ⟨b, hb, hcb, -⟩
          simp only [Option.some.injEq] at hb
          subst hb
          exact absurd hcb hc
    · intro b hb hcb htb
      simp only [Option.some.injEq] at hb
      subst hb
      rw [hred, if_pos hcb, if_neg (by omega)]
    · intro b hb hcb
      simp only [Option.some.injEq] at hb
      subst hb
      rw [hred, if_neg (by omega)]
    · intro hnone
      exact absurd hnone (by simp)

/-- Witness for the amended C6: the record `{count := 1, lastAttempt := 0}`
is stale at time `LOCKOUT_TIME` yet returned unchanged, via the
below-`MAX_ATTEMPTS` conjunct. -/
theorem isLockedOut_iff_and_clears_only_maxed_witness :
    mapGet [("10.0.0.1", ⟨1, 0⟩)] "10.0.0.1" = some ⟨1, 0⟩ ∧
    (1 : Nat) < MAX_ATTEMPTS ∧
    isLockedOut [("10.0.0.1", ⟨1, 0⟩)] "10.0.0.1" LOCKOUT_TIME
      = (false, [("10.0.0.1", ⟨1, 0⟩)]) :=
  ⟨by decide, by decide,
    (isLockedOut_iff_and_clears_only_maxed [("10.0.0.1", ⟨1, 0⟩)] "10.0.0.1"
      LOCKOUT_TIME).2.2.1 ⟨1, 0⟩ (by decide) (by decide)⟩

/-- C2 counterexample: with the configured secret `"abc"` — present but
failing the 4–10-digit format check — the gate does not allow requests
unconditionally: a request supplying the well-formed credential `"1234"` is
denied with 401, because `requirePin` short-circuits only on `!PIN`. -/
theorem gate_invalid_secret_still_denies :
    isValidPin (.str [97, 98, 99]) = false ∧
    requirePin (some [97, 98, 99]) (.str [49, 50, 51, 52]) = .unauthorized := by
  constructor <;> decide

/-- C2 amended: the gate allows every request unconditionally exactly when
the configured secret is falsy — absent or the empty string.  When a secret
is present and nonempty but fails the format check, protection is not
disabled: every request is denied (400 when the supplied credential is
malformed, otherwise 401, since no well-formed credential can byte-equal a
malformed secret). -/
theorem gate_unconditional_allow_iff_falsy (p : JSVal) :
    requirePin none p = .allowed ∧
    requirePin (some []) p = .allowed ∧
    (∀ P : List Nat, P ≠ [] → isValidPin (.str P) = false →
      requirePin (some P) p ≠ .allowed) := by
  refine ⟨rfl, rfl, ?_⟩
  intro P hne hfmt
  simp only [requirePin]
  rw [if_neg hne]
  by_cases hv : isValidPin p = true
  · cases p with
    | other => exact absurd hv (by simp [isValidPin])
    | str xs =>
      have hcmp : secureCompare (.str xs) (.str P) = false := by
        cases hsc : secureCompare (.str xs) (.str P) with
        | false => rfl
        | true =>
          have hxP : xs = P := (secureCompare_str_iff xs P).1 hsc
          rw [hxP] at hv
          rw [hv] at hfmt
          cases hfmt
      simp [hv, hcmp]
  · have hv' : isValidPin p = false := by
      cases h : isValidPin p
      · rfl
      · exact absurd h hv
    simp [hv']

/-- Witness for the amended C2 at the concrete malformed secret `"abc"` and
well-formed credential `"1234"`. -/
theorem gate_unconditional_allow_iff_falsy_witness :
    ([97, 98, 99] : List Nat) ≠ [] ∧
    isValidPin (.str [97, 98, 99]) = false ∧
    requirePin (some [97, 98, 99]) (.str [49, 50, 51, 52]) ≠ .allowed :=
  ⟨by decide, by decide,
    (gate_unconditional_allow_iff_falsy (.str [49, 50, 51, 52])).2.2 [97, 98, 99]
      (by decide) (by decide)⟩

/-- C3 counterexample: two `create()` calls in the same millisecond —
`Date.now()` reading 1000 both times — generate the id `"1000"` twice: the
default names differ (`Notepad 2`, `Notepad 3`) but the ids collide, and the
registry afterwards contains a duplicated id. -/
theorem create_same_millisecond_id_collision :
    createNotepad ⟨some [defaultNotepad], []⟩ 1000
      = (.notepadCreated ⟨"1000", "Notepad 2"⟩,
          ⟨some [defaultNotepad, ⟨"1000", "Notepad 2"⟩],
            [(["__dirname", "data", "1000.txt"], "")]⟩) ∧
    createNotepad ⟨some [defaultNotepad, ⟨"1000", "Notepad 2"⟩],
        [(["__dirname", "data", "1000.txt"], "")]⟩ 1000
      = (.notepadCreated ⟨"1000", "Notepad 3"⟩,
          ⟨some [defaultNotepad, ⟨"1000", "Notepad 2"⟩, ⟨"1000", "Notepad 3"⟩],
            [(["__dirname", "data", "1000.txt"], "")]⟩) := by
  constructor <;> decide

/-- C3 amended: `create()` appends an entry whose id is
`Date.now().toString()` and whose default name is `Notepad (count + 1)`.
Two successive calls always yield the default names `Notepad N` and
`Notepad N+1` (`N - 1` the prior registry count), and distinct ids provided
the two `Date.now()` readings differ; within a single millisecond the ids
collide, so freshness holds only when the timestamp string is new. -/
theorem create_distinct_times_distinct_ids (pads : List Notepad) (fs : FileSys)
    (t1 t2 : Nat) (hne : t1 ≠ t2) :
    Nat.repr t1 ≠ Nat.repr t2 ∧
    createNotepad ⟨some pads, fs⟩ t1
      = (.notepadCreated ⟨Nat.repr t1, "Notepad " ++ Nat.repr (pads.length + 1)⟩,
          ⟨some (pads ++ [⟨Nat.repr t1, "Notepad " ++ Nat.repr (pads.length + 1)⟩]),
            fsWrite fs (notePath (Nat.repr t1)) ""⟩) ∧
    (createNotepad (createNotepad ⟨some pads, fs⟩ t1).2 t2).1
      = .notepadCreated ⟨Nat.repr t2, "Notepad " ++ Nat.repr (pads.length + 2)⟩ := by
  refine ⟨fun h => hne (natRepr_injective h), rfl, ?_⟩
  have hlen :
      (pads ++ [(⟨Nat.repr t1, "Notepad " ++ Nat.repr (pads.length + 1)⟩ : Notepad)]).length + 1
        = pads.length + 2 := by
    simp
  simp [createNotepad, hlen]

/-- Witness for the amended C3 at the distinct readings 1000 and 1001 on a
registry holding only the default notepad. -/
theorem create_distinct_times_distinct_ids_witness :
    (1000 : Nat) ≠ 1001 ∧
    Nat.repr 1000 ≠ Nat.repr 1001 ∧
    (createNotepad (createNotepad ⟨some [defaultNotepad], []⟩ 1000).2 1001).1
      = .notepadCreated ⟨Nat.repr 1001, "Notepad " ++ Nat.repr ([defaultNotepad].length + 2)⟩ :=
  ⟨by decide,
    (create_distinct_times_distinct_ids [defaultNotepad] [] 1000 1001 (by decide)).1,
    (create_distinct_times_distinct_ids [defaultNotepad] [] 1000 1001 (by decide)).2.2⟩

/-- C7: the `DELETE /api/notepads/:id` handler — deleting `"default"` fails
with 400 and no state change whatever the registry state (the check precedes
the registry read); an id absent from a readable registry fails with 404 and
no state change; otherwise the handler succeeds with the entry removed from
the persisted registry, and neither the response nor the committed registry
depends on whether the best-effort content unlink succeeds. -/
theorem deleteNotepad_spec (st : ServerState) (id : String) (uo : Bool) :
    deleteNotepad st "default" uo = (.invalidOp, st) ∧
    (∀ pads, st.registry = some pads → id ≠ "default" →
      pads.all (fun n => decide (n.id ≠ id)) = true →
      deleteNotepad st id uo = (.notFound, st)) ∧
    (∀ pads, st.registry = some pads → id ≠ "default" →
      pads.all (fun n => decide (n.id ≠ id)) = false →
      deleteNotepad st id uo
        = (.deleted, ⟨some (removeFirst pads id),
            if uo then fsErase st.files (notePath id) else st.files⟩)) := by
  refine ⟨rfl, ?_, ?_⟩
  · intro pads hreg hid hall
    obtain ⟨reg, files⟩ := st
    simp only at hreg
    subst hreg
    rw [deleteNotepad_eq pads files id uo hid, hall]
    simp
  · intro pads hreg hid hall
    obtain ⟨reg, files⟩ := st
    simp only at hreg
    subst hreg
    rw [deleteNotepad_eq pads files id uo hid, hall]
    simp

/-- Witness for C7: deleting the existing non-default notepad `"123"` with a
succeeding unlink. -/
theorem deleteNotepad_spec_witness :
    (⟨some [defaultNotepad, ⟨"123", "Notepad 2"⟩], [(notePath "123", "hi")]⟩ :
        ServerState).registry
      = some [defaultNotepad, ⟨"123", "Notepad 2"⟩] ∧
    ("123" : String) ≠ "default" ∧
    ([defaultNotepad, ⟨"123", "Notepad 2"⟩].all (fun n => decide (n.id ≠ "123"))) = false ∧
    deleteNotepad ⟨some [defaultNotepad, ⟨"123", "Notepad 2"⟩], [(notePath "123", "hi")]⟩
        "123" true
      = (.deleted, ⟨some (removeFirst [defaultNotepad, ⟨"123", "Notepad 2"⟩] "123"),
          if true then fsErase [(notePath "123", "hi")] (notePath "123")
          else [(notePath "123", "hi")]⟩) :=
  ⟨rfl, by decide, by decide,
    (deleteNotepad_spec ⟨some [defaultNotepad, ⟨"123", "Notepad 2"⟩],
        [(notePath "123", "hi")]⟩ "123" true).2.2
      [defaultNotepad, ⟨"123", "Notepad 2"⟩] rfl (by decide) (by decide)⟩

/-- C8: `GET /api/config` is registered before the gate middleware, so for
every environment (a valid configured PIN included), every request carrying
that method and path (a missing `x-pin` header included), every server state
and every rate-limiter map, it answers with the site title and base URL —
never a gate denial. -/
theorem config_route_exempt_from_gate (env : Env) (req : Request)
    (st : ServerState) (m : AttemptMap) (now : Nat) (uo : Bool)
    (hm : req.method = .GET) (hp : req.path = "/config") :
    dispatch env req st m now uo
      = (.config (env.siteTitle.getD "DumbPad") env.baseUrl, st, m) := by
  obtain ⟨mth, pth, ip, xpin, bodyPin, bodyName, bodyContent⟩ := req
  simp only at hm hp
  subst hm
  subst hp
  simp [dispatch]

/-- Witness for C8: a valid PIN `"1234"` is configured and the request
carries no `x-pin` header, yet the config is served. -/
theorem config_route_exempt_from_gate_witness :
    (⟨.GET, "/config", "9.9.9.9", .other, .other, "", ""⟩ : Request).method = .GET ∧
    (⟨.GET, "/config", "9.9.9.9", .other, .other, "", ""⟩ : Request).path = "/config" ∧
    dispatch ⟨some [49, 50, 51, 52], none, "http://localhost:3000"⟩
        ⟨.GET, "/config", "9.9.9.9", .other, .other, "", ""⟩
        ⟨some [defaultNotepad], []⟩ [] 0 true
      = (.config "DumbPad" "http://localhost:3000", ⟨some [defaultNotepad], []⟩, []) :=
  ⟨rfl, rfl,
    config_route_exempt_from_gate ⟨some [49, 50, 51, 52], none, "http://localhost:3000"⟩
      ⟨.GET, "/config", "9.9.9.9", .other, .other, "", ""⟩
      ⟨some [defaultNotepad], []⟩ [] 0 true rfl rfl⟩

/-- C9: for every state, notepad id and text — the empty string and
multi-line content included — writing then reading the same id returns
exactly the written text, and reading an id whose backing file does not
exist returns the empty string rather than an error. -/
theorem note_write_read_roundtrip (st : ServerState) (id text : String) :
    getNotes (saveNotes st id text).files id = text ∧
    (fsRead st.files (notePath id) = none → getNotes st.files id = "") := by
  refine ⟨getNotes_saveNotes st id text, ?_⟩
  intro h
  simp [getNotes, h]

/-- Witness for C9 with multi-line content and a never-written id. -/
theorem note_write_read_roundtrip_witness :
    fsRead ([] : FileSys) (notePath "abc") = none ∧
    getNotes (saveNotes ⟨none, []⟩ "abc" "line1\nline2").files "abc" = "line1\nline2" ∧
    getNotes ([] : FileSys) "abc" = "" :=
  ⟨rfl, (note_write_read_roundtrip ⟨none, []⟩ "abc" "line1\nline2").1,
    (note_write_read_roundtrip ⟨none, []⟩ "abc" "").2 rfl⟩

/-- C10: both note handlers operate on exactly
`path.join(DATA_DIR, id + ".txt")` for every id taken from the request path,
with no validation or sanitization: the id `"../escape"` resolves after
normalization to `__dirname/escape.txt`, outside the data directory; the
write's effect on the files is independent of the registry, and a write
under an id absent from the registry still lands and round-trips. -/
theorem note_store_unsanitized_paths (st : ServerState) (id text : String) :
    (∀ i : String, notePath i = normalize (dataDir ++ splitPath (i ++ ".txt"))) ∧
    notePath "../escape" = ["__dirname", "escape.txt"] ∧
    isUnder dataDir (notePath "../escape") = false ∧
    (saveNotes st id text).files = (saveNotes ⟨none, st.files⟩ id text).files ∧
    (∀ pads, st.registry = some pads →
      pads.all (fun n => decide (n.id ≠ id)) = true →
      getNotes (saveNotes st id text).files id = text) :=
  ⟨fun _ => rfl, by decide, by decide, rfl,
    fun _ _ _ => getNotes_saveNotes st id text⟩

/-- Witness for C10: the id `"123"` does not occur in the registry, yet the
write lands and reads back. -/
theorem note_store_unsanitized_paths_witness :
    (⟨some [defaultNotepad], []⟩ : ServerState).registry = some [defaultNotepad] ∧
    ([defaultNotepad].all (fun n => decide (n.id ≠ "123"))) = true ∧
    getNotes (saveNotes ⟨some [defaultNotepad], []⟩ "123" "hi").files "123" = "hi" :=
  ⟨rfl, by decide,
    (note_store_unsanitized_paths ⟨some [defaultNotepad], []⟩ "123" "hi").2.2.2.2
      [defaultNotepad] rfl (by decide)⟩

end DumbPad
